import Mathlib

/-!
Formal model of the diesel-factories crate (src/diesel-factories/src/lib.rs).

The crate has three pieces: the `Association` sum type with its resolution
function `insert_returning_id`, the `Factory` trait, and the `sequence`
counter utility.  Pure Rust functions become Lean functions; the process-wide
atomic counter becomes explicit state passing (and, for the concurrency
analysis, an explicit interleaving of its two atomic operations); a Rust
panic on a failed insert becomes `Except.error`, with the datastore state
threaded through so rows persisted before a failure remain visible.  The
counter is an `AtomicUsize`, modelled as a `Nat` reduced modulo `2 ^ 64`
at each increment.
-/

namespace DieselFactories

/-- Bit width of `usize` on the 64-bit targets the crate is built for. -/
def usizeBits : Nat := 64

/-- Wrapping arithmetic of `AtomicUsize`: values live in `[0, 2 ^ usizeBits)`. -/
def usizeWrap (n : Nat) : Nat := n % 2 ^ usizeBits

/-- State of the process-wide `SEQUENCE_COUNTER` (src/lib.rs 459-461):
a single atomic `usize`, initialised to `0` at process start. -/
structure SeqState where
  counter : Nat
deriving DecidableEq

/-- The counter at process start: `AtomicUsize::new(0)`. -/
def SeqState.start : SeqState := ⟨0⟩

/-- The `fetch_add(1, Ordering::SeqCst)` call of `sequence`: wrapping
increment, returning the previous value (which `sequence` discards). -/
def SeqState.fetch_add_one (s : SeqState) : Nat × SeqState :=
  (s.counter, ⟨usizeWrap (s.counter + 1)⟩)

/-- The `load(Ordering::Relaxed)` call of `sequence`: read the counter. -/
def SeqState.load (s : SeqState) : Nat := s.counter

/-- Shallow embedding of `sequence` (src/lib.rs 474-481) as executed by one
thread with no interference: `fetch_add` the counter by one, `load` it back,
apply the caller's formatting function `f` to the loaded value, and return
the result together with the updated counter state. -/
def sequence {T : Type} (f : Nat → T) (s : SeqState) : T × SeqState :=
  let s1 := (s.fetch_add_one).2
  (f s1.load, s1)

/-- Counter state after `n` single-threaded calls to `sequence` from process
start.  The state transition of `sequence` does not depend on the formatting
function, so it is taken at `f = id`. -/
def stateAfterCalls : Nat → SeqState
  | 0 => SeqState.start
  | n + 1 => (sequence id (stateAfterCalls n)).2

/-- The integer fed to the formatting function at the `n`-th single-threaded
call to `sequence`, calls numbered from 1. -/
def fedAtCall (n : Nat) : Nat := (sequence id (stateAfterCalls (n - 1))).1

/-! For the concurrency analysis, the body of `sequence` is decomposed into
its two atomic operations on the shared counter; a schedule is a list of such
operations tagged with the thread performing them, and running a schedule
records the value every `load` observes — the value handed to that call's
formatting function. -/

/-- One atomic operation on `SEQUENCE_COUNTER`, tagged with a thread id. -/
inductive SeqEvent where
  | fetchAdd (tid : Nat)
  | load (tid : Nat)
deriving DecidableEq

/-- The thread performing an event. -/
def SeqEvent.tid : SeqEvent → Nat
  | .fetchAdd t => t
  | .load t => t

/-- The atomic operations one call to `sequence` on thread `t` performs, in
program order: first the `fetch_add`, then the separate `load`. -/
def sequenceCallEvents (t : Nat) : List SeqEvent :=
  [.fetchAdd t, .load t]

/-- Run a schedule of atomic counter operations from counter value `c`:
the final counter together with, in schedule order, each `load`'s thread id
and the value it observed. -/
def runSchedule : List SeqEvent → Nat → Nat × List (Nat × Nat)
  | [], c => (c, [])
  | .fetchAdd _ :: es, c => runSchedule es (usizeWrap (c + 1))
  | .load t :: es, c =>
      let r := runSchedule es c
      (r.1, (t, c) :: r.2)

/-- A schedule is an interleaving of one `sequence` call on thread 0 and one
on thread 1: restricted to either thread it is exactly that call's program
order, and no other thread takes part. -/
def interleavesTwoCalls (es : List SeqEvent) : Prop :=
  es.filter (fun e => e.tid == 0) = sequenceCallEvents 0 ∧
  es.filter (fun e => e.tid == 1) = sequenceCallEvents 1 ∧
  ∀ e ∈ es, e.tid = 0 ∨ e.tid = 1

/-- The interleaving in which both threads perform their `fetch_add` before
either performs its `load`. -/
def racySchedule : List SeqEvent :=
  [.fetchAdd 0, .fetchAdd 1, .load 0, .load 1]

/-! The `Association` type and its resolution, and the `Factory` trait. -/

/-- Shallow embedding of the `Factory` trait (src/lib.rs 433-457).  The
associated types `Model`, `Id`, `Connection` become type parameters, plus a
datastore-state type `S` threaded through `insert`; Rust's panic on a failed
insert becomes `Except.error` paired with the state reached at the failure. -/
structure Factory (F Model Id Conn S : Type) where
  insert : F → Conn → S → (Except String Model) × S
  id_for_model : Model → Id

/-- Shallow embedding of `Association` (src/lib.rs 380-391).  The Rust
`Model` variant borrows `&'a Model`; the embedding is pure, so the borrow is
the model value itself. -/
inductive Association (Model F : Type) where
  | model (m : Model)
  | factory (f : F)

/-- The `Default` impl for `Association` (src/lib.rs 393-397): always the
`Factory` variant wrapping the factory type's own default.  Construction is
pure — no datastore state is involved. -/
instance {Model F : Type} [Inhabited F] : Inhabited (Association Model F) :=
  ⟨Association.factory default⟩

/-- Sequencing of a fallible, state-threading insert (the `?`-free Rust code
panics instead; a panic propagates past the rest of the caller's body, which
is exactly the error branch here). -/
def andThenInsert {S A B : Type} (r : (Except String A) × S)
    (k : A → S → (Except String B) × S) : (Except String B) × S :=
  match r with
  | (.ok a, s) => k a s
  | (.error e, s) => (.error e, s)

@[simp]
theorem andThenInsert_ok {S A B : Type} (a : A) (s : S)
    (k : A → S → (Except String B) × S) :
    andThenInsert (.ok a, s) k = k a s := rfl

@[simp]
theorem andThenInsert_error {S A B : Type} (e : String) (s : S)
    (k : A → S → (Except String B) × S) :
    andThenInsert (.error e, s) k = (.error e, s) := rfl

/-- Shallow embedding of `Association::insert_returning_id`
(src/lib.rs 411-425).  The `Model` arm returns `F::id_for_model(&model)`
cloned, touching no state; the `Factory` arm clones the contained factory
(a pure value copy here), calls `insert` on the clone and returns the fresh
model's id.  The association is only borrowed — being a pure value, it is
unchanged by resolution. -/
def Association.insert_returning_id {F M I Conn S : Type}
    (inst : Factory F M I Conn S) (a : Association M F) (con : Conn) (db : S) :
    (Except String I) × S :=
  match a with
  | .model m => (.ok (inst.id_for_model m), db)
  | .factory f =>
      andThenInsert (inst.insert f con db) fun m db1 => (.ok (inst.id_for_model m), db1)

/-! A concrete instantiation: the Country / City / User chain of the crate's
documentation, with the derive-generated factory code — which lives in the
separate code-generation crate, not under this repository's `src/` — modelled
from the spec, together with an explicit external datastore. -/

/-- The three tables of the concrete model. -/
inductive Table where
  | countries
  | cities
  | users
deriving DecidableEq

/-- A persisted country row (the grandparent of the three-level chain). -/
structure Country where
  id : Nat
  name : String
deriving DecidableEq

/-- A persisted city row, with a foreign key to its country. -/
structure City where
  id : Nat
  name : String
  country_id : Nat
deriving DecidableEq

/-- A persisted user row, with a foreign key to the user's city. -/
structure User where
  id : Nat
  name : String
  city_id : Nat
deriving DecidableEq

/-- Modelled from the spec: the external datastore behind the data-mapping
layer's insert primitive (spec §6), absent from this repository's `src/`.
Rows per table in insertion order, a log of which table each insert touched
(for ordering claims), a fresh-id source, and per-table failure injection
standing for the primitive's possible failure (constraint violation,
connectivity). -/
structure DB where
  countries : List Country
  cities : List City
  users : List User
  log : List Table
  nextId : Nat
  failing : Table → Bool

/-- No insert primitive fails. -/
def noFailures : Table → Bool := fun _ => false

/-- A fresh datastore: no rows, ids from 1, nothing failing. -/
def emptyDB : DB := ⟨[], [], [], [], 1, noFailures⟩

/-- Modelled from the spec: the data-mapping layer's insert primitive for the
countries table (spec §6) — persist the row and return it hydrated with a
fresh id, or fail leaving the datastore untouched. -/
def DB.insertCountry (db : DB) (nm : String) : (Except String Country) × DB :=
  if db.failing Table.countries then (.error "insert failed", db)
  else
    let row : Country := ⟨db.nextId, nm⟩
    (.ok row,
      { db with
        countries := db.countries ++ [row]
        log := db.log ++ [Table.countries]
        nextId := db.nextId + 1 })

/-- Modelled from the spec: the insert primitive for the cities table. -/
def DB.insertCity (db : DB) (nm : String) (cid : Nat) : (Except String City) × DB :=
  if db.failing Table.cities then (.error "insert failed", db)
  else
    let row : City := ⟨db.nextId, nm, cid⟩
    (.ok row,
      { db with
        cities := db.cities ++ [row]
        log := db.log ++ [Table.cities]
        nextId := db.nextId + 1 })

/-- Modelled from the spec: the insert primitive for the users table. -/
def DB.insertUser (db : DB) (nm : String) (cid : Nat) : (Except String User) × DB :=
  if db.failing Table.users then (.error "insert failed", db)
  else
    let row : User := ⟨db.nextId, nm, cid⟩
    (.ok row,
      { db with
        users := db.users ++ [row]
        log := db.log ++ [Table.users]
        nextId := db.nextId + 1 })

/-- A factory for countries, as in the crate's documentation: a single plain
field, no associations. -/
structure CountryFactory where
  name : String

/-- The documented `Default` impl for `CountryFactory`. -/
def CountryFactory.default : CountryFactory := ⟨"Denmark"⟩

instance : Inhabited CountryFactory := ⟨CountryFactory.default⟩

/-- Modelled from the spec: the derive-generated `Factory::insert` for
`CountryFactory` (spec §2, §4.1; the code-generation crate is not under
`src/`) — no associations to resolve, so it assembles the row from its
fields and delegates to the insert primitive. -/
def CountryFactory.insert (f : CountryFactory) (_con : Unit) (db : DB) :
    (Except String Country) × DB :=
  db.insertCountry f.name

/-- The `Factory` trait instance for `CountryFactory` (`Connection` is
opaque to this layer and modelled as `Unit`). -/
def countryImpl : Factory CountryFactory Country Nat Unit DB :=
  { insert := CountryFactory.insert, id_for_model := Country.id }

/-- A factory for cities, holding an association to its country. -/
structure CityFactory where
  name : String
  country : Association Country CountryFactory

/-- The documented `Default` impl for `CityFactory`: default plain fields and
`Association::default()` for the association. -/
def CityFactory.default : CityFactory := ⟨"Copenhagen", Inhabited.default⟩

instance : Inhabited CityFactory := ⟨CityFactory.default⟩

/-- Modelled from the spec: the derive-generated `Factory::insert` for
`CityFactory` (spec §2, §4.1) — resolve the country association to an id via
`Association::insert_returning_id`, then assemble the row referencing that
id and delegate to the insert primitive. -/
def CityFactory.insert (f : CityFactory) (con : Unit) (db : DB) :
    (Except String City) × DB :=
  andThenInsert (Association.insert_returning_id countryImpl f.country con db)
    fun cid db1 => db1.insertCity f.name cid

/-- The `Factory` trait instance for `CityFactory`. -/
def cityImpl : Factory CityFactory City Nat Unit DB :=
  { insert := CityFactory.insert, id_for_model := City.id }

/-- A factory for users, holding an association to the user's city: the
grandchild of the three-level chain. -/
structure UserFactory where
  name : String
  city : Association City CityFactory

/-- The `Default` impl for `UserFactory`: a default `Pending` association to
a `CityFactory`, which itself holds a default `Pending` association to a
`CountryFactory`. -/
def UserFactory.default : UserFactory := ⟨"Bob", Inhabited.default⟩

instance : Inhabited UserFactory := ⟨UserFactory.default⟩

/-- Modelled from the spec: the derive-generated `Factory::insert` for
`UserFactory` (spec §2, §4.1). -/
def UserFactory.insert (f : UserFactory) (con : Unit) (db : DB) :
    (Except String User) × DB :=
  andThenInsert (Association.insert_returning_id cityImpl f.city con db)
    fun cid db1 => db1.insertUser f.name cid

/-- The `Factory` trait instance for `UserFactory`. -/
def userImpl : Factory UserFactory User Nat Unit DB :=
  { insert := UserFactory.insert, id_for_model := User.id }

/-- The datastore after inserting the default country into `emptyDB`. -/
def dbOneCountry : DB := ⟨[⟨1, "Denmark"⟩], [], [], [Table.countries], 2, noFailures⟩

/-! Theorems. -/

/-- After `n` single-threaded calls the counter holds `n`, as long as `n`
fits in a `usize`. -/
theorem stateAfterCalls_counter (n : Nat) (h : n < 2 ^ usizeBits) :
    (stateAfterCalls n).counter = n := by
  induction n with
  | zero => rfl
  | succ k ih =>
      have hk : k < 2 ^ usizeBits := Nat.lt_of_succ_lt h
      have hstep : (stateAfterCalls (k + 1)).counter
          = usizeWrap ((stateAfterCalls k).counter + 1) := rfl
      rw [hstep, ih hk]
      simpa [usizeWrap] using Nat.mod_eq_of_lt h

/-- The value a single-threaded `sequence` call feeds to its formatting
function, at any call number that fits in a `usize`. -/
theorem sequence_feeds_call_number {T : Type} (g : Nat → T) (k : Nat)
    (hk1 : 1 ≤ k) (hk2 : k < 2 ^ usizeBits) :
    (sequence g (stateAfterCalls (k - 1))).1 = g k := by
  have hklt : k - 1 < 2 ^ usizeBits := lt_of_le_of_lt (Nat.sub_le k 1) hk2
  have hc := stateAfterCalls_counter (k - 1) hklt
  show g (usizeWrap ((stateAfterCalls (k - 1)).counter + 1)) = g k
  rw [hc, Nat.sub_add_cancel hk1]
  exact congrArg g (by simpa [usizeWrap] using Nat.mod_eq_of_lt hk2)

/-- C9: each call to `sequence` increments the shared counter, reads back the
new value and applies the supplied formatting function to it; the counter
starts at 0, so in single-threaded execution the `n`-th call feeds the
integer `n` to its formatting function, and successive calls feed strictly
increasing integers (both for call numbers that fit in the 64-bit `usize`
counter, which wraps). -/
theorem sequence_counts_up {T : Type} (f : Nat → T) (n : Nat)
    (h1 : 1 ≤ n) (h2 : n < 2 ^ usizeBits) :
    (sequence f (stateAfterCalls (n - 1))).1 = f n ∧
    fedAtCall n = n ∧
    ∀ m, 1 ≤ m → m < n → fedAtCall m < fedAtCall n := by
  refine ⟨sequence_feeds_call_number f n h1 h2, sequence_feeds_call_number id n h1 h2, ?_⟩
  intro m hm1 hmn
  have hm2 : m < 2 ^ usizeBits := lt_trans hmn h2
  have em : fedAtCall m = m := sequence_feeds_call_number id m hm1 hm2
  have en : fedAtCall n = n := sequence_feeds_call_number id n h1 h2
  rw [em, en]
  exact hmn

/-- Witness for C9 at the third call from process start. -/
theorem sequence_counts_up_witness :
    fedAtCall 3 = 3 ∧ fedAtCall 2 < fedAtCall 3 := by
  have h := sequence_counts_up id 3 (by norm_num) (by norm_num [usizeBits])
  exact ⟨h.2.1, h.2.2 2 (by norm_num) (by norm_num)⟩

/-- C1 is false of the code: `sequence` performs a `fetch_add` and then a
separate `load`, not an atomic increment-then-read, so in the interleaving
where both threads increment before either reads, both calls load the same
counter value 2 and feed the same number to their formatting functions.
`racySchedule` is a genuine interleaving of one `sequence` call per thread,
and running it from the initial counter 0 makes thread 0's `load` and thread
1's `load` both observe 2. -/
theorem sequence_race_two_calls_same_number :
    interleavesTwoCalls racySchedule ∧
    runSchedule racySchedule 0 = (2, [(0, 2), (1, 2)]) := by
  constructor
  · refine ⟨by decide, by decide, ?_⟩
    intro e he
    fin_cases he <;> simp [SeqEvent.tid]
  · simp [racySchedule, runSchedule, usizeWrap, usizeBits]

/-- C2: resolving an `Existing` association returns `id_for_model` of the
borrowed record (by copy) and leaves the datastore exactly as it was — no
insert, no mutation.  The equation also shows the result does not depend on
the instance's `insert` operation at all. -/
theorem insert_returning_id_existing {F M I Conn S : Type}
    (inst : Factory F M I Conn S) (m : M) (con : Conn) (db : S) :
    Association.insert_returning_id inst (.model m) con db
      = (.ok (inst.id_for_model m), db) := rfl

/-- C3: resolving a `Pending` association runs `insert` on a copy of the
contained factory and returns the freshly persisted model's id together with
the datastore the insert produced.  Resolution borrows the association, a
pure value here, so the factory held inside it is unchanged by the call. -/
theorem insert_returning_id_pending {F M I Conn S : Type}
    (inst : Factory F M I Conn S) (f : F) (con : Conn) (db : S) (m : M) (db' : S)
    (h : inst.insert f con db = (.ok m, db')) :
    Association.insert_returning_id inst (.factory f) con db
      = (.ok (inst.id_for_model m), db') := by
  simp [Association.insert_returning_id, h]

/-- Witness for C3: resolving the default pending country association on the
empty datastore inserts Denmark and returns its id 1. -/
theorem insert_returning_id_pending_witness :
    Association.insert_returning_id countryImpl
        (.factory CountryFactory.default) () emptyDB = (.ok 1, dbOneCountry) :=
  insert_returning_id_pending countryImpl CountryFactory.default () emptyDB
    ⟨1, "Denmark"⟩ dbOneCountry rfl

/-- C6: default construction of an `Association` yields the `Factory`
(pending) variant wrapping the factory type's own default value; it is a pure
construction, involving no datastore and hence no insert. -/
theorem association_default_pending {M F : Type} [Inhabited F] :
    (default : Association M F) = Association.factory (default : F) := rfl

/-- C4: with one persisted parent row `P` and two child factories each holding
an `Existing` association to `P`, inserting both children succeeds, leaves
exactly the one parent row `P` in the datastore, and gives both children a
foreign key equal to `P`'s identifier. -/
theorem existing_shared_parent_no_duplicate (db : DB) (P : Country)
    (f1 f2 : CityFactory)
    (h1 : f1.country = Association.model P) (h2 : f2.country = Association.model P)
    (hP : db.countries = [P]) (hc : db.failing Table.cities = false) :
    ∃ c1 c2,
      (cityImpl.insert f1 () db).1 = .ok c1 ∧
      (cityImpl.insert f2 () (cityImpl.insert f1 () db).2).1 = .ok c2 ∧
      (cityImpl.insert f2 () (cityImpl.insert f1 () db).2).2.countries = [P] ∧
      c1.country_id = P.id ∧ c2.country_id = P.id := by
  obtain ⟨n1, a1⟩ := f1
  obtain ⟨n2, a2⟩ := f2
  have e1 : a1 = Association.model P := h1
  have e2 : a2 = Association.model P := h2
  subst e1
  subst e2
  refine ⟨⟨db.nextId, n1, P.id⟩, ⟨db.nextId + 1, n2, P.id⟩, ?_, ?_, ?_, rfl, rfl⟩ <;>
    simp [cityImpl, countryImpl, CityFactory.insert, Association.insert_returning_id,
      DB.insertCity, hc, hP]

/-- Witness for C4: Denmark persisted once with id 1; Amsterdam and The Hague
each hold an `Existing` association to it. -/
theorem existing_shared_parent_no_duplicate_witness :
    ∃ c1 c2,
      (cityImpl.insert ⟨"Amsterdam", .model ⟨1, "Denmark"⟩⟩ () dbOneCountry).1 = .ok c1 ∧
      (cityImpl.insert ⟨"The Hague", .model ⟨1, "Denmark"⟩⟩ ()
          (cityImpl.insert ⟨"Amsterdam", .model ⟨1, "Denmark"⟩⟩ () dbOneCountry).2).1 = .ok c2 ∧
      (cityImpl.insert ⟨"The Hague", .model ⟨1, "Denmark"⟩⟩ ()
          (cityImpl.insert ⟨"Amsterdam", .model ⟨1, "Denmark"⟩⟩ () dbOneCountry).2).2.countries
        = [⟨1, "Denmark"⟩] ∧
      c1.country_id = Country.id ⟨1, "Denmark"⟩ ∧ c2.country_id = Country.id ⟨1, "Denmark"⟩ :=
  existing_shared_parent_no_duplicate dbOneCountry ⟨1, "Denmark"⟩
    ⟨"Amsterdam", .model ⟨1, "Denmark"⟩⟩ ⟨"The Hague", .model ⟨1, "Denmark"⟩⟩
    rfl rfl rfl rfl

/-- C5: two child factories built via `default`, each owning its own pending
parent association, insert two distinct parent rows with two distinct
identifiers — resolution performs a parent insert each time, with no caching
or deduplication. -/
theorem default_children_distinct_parents (db : DB)
    (hco : db.failing Table.countries = false)
    (hci : db.failing Table.cities = false) :
    ∃ c1 c2 p1 p2,
      (cityImpl.insert CityFactory.default () db).1 = .ok c1 ∧
      (cityImpl.insert CityFactory.default ()
          (cityImpl.insert CityFactory.default () db).2).1 = .ok c2 ∧
      (cityImpl.insert CityFactory.default ()
          (cityImpl.insert CityFactory.default () db).2).2.countries
        = db.countries ++ [p1, p2] ∧
      p1.id ≠ p2.id ∧ c1.country_id = p1.id ∧ c2.country_id = p2.id := by
  have hd : CityFactory.default
      = ⟨"Copenhagen", Association.factory (CountryFactory.mk "Denmark")⟩ := rfl
  refine ⟨⟨db.nextId + 1, "Copenhagen", db.nextId⟩,
    ⟨db.nextId + 3, "Copenhagen", db.nextId + 2⟩,
    ⟨db.nextId, "Denmark"⟩, ⟨db.nextId + 2, "Denmark"⟩, ?_, ?_, ?_, ?_, rfl, rfl⟩ <;>
    simp [hd, cityImpl, countryImpl, CityFactory.insert, CountryFactory.insert,
      Association.insert_returning_id, DB.insertCountry, DB.insertCity, hco, hci]

/-- Witness for C5 on the empty datastore: the two default cities insert the
two Denmark rows with ids 1 and 3 and reference them respectively. -/
theorem default_children_distinct_parents_witness :
    ∃ c1 c2 p1 p2,
      (cityImpl.insert CityFactory.default () emptyDB).1 = .ok c1 ∧
      (cityImpl.insert CityFactory.default ()
          (cityImpl.insert CityFactory.default () emptyDB).2).1 = .ok c2 ∧
      (cityImpl.insert CityFactory.default ()
          (cityImpl.insert CityFactory.default () emptyDB).2).2.countries
        = emptyDB.countries ++ [p1, p2] ∧
      p1.id ≠ p2.id ∧ c1.country_id = p1.id ∧ c2.country_id = p2.id :=
  default_children_distinct_parents emptyDB rfl rfl

/-- C7: one top-level insert of the default three-level chain (user → city →
country) inserts the grandparent country first, then the city referencing the
country's id, then the user referencing the city's id — the insertion log
grows by exactly `[countries, cities, users]` in that order. -/
theorem nested_insert_depth_first (db : DB)
    (hco : db.failing Table.countries = false)
    (hci : db.failing Table.cities = false)
    (hus : db.failing Table.users = false) :
    ∃ g c u,
      (userImpl.insert UserFactory.default () db).1 = .ok u ∧
      (userImpl.insert UserFactory.default () db).2.log
        = db.log ++ [Table.countries, Table.cities, Table.users] ∧
      (userImpl.insert UserFactory.default () db).2.countries = db.countries ++ [g] ∧
      (userImpl.insert UserFactory.default () db).2.cities = db.cities ++ [c] ∧
      (userImpl.insert UserFactory.default () db).2.users = db.users ++ [u] ∧
      c.country_id = g.id ∧ u.city_id = c.id := by
  have hd : UserFactory.default
      = ⟨"Bob", Association.factory
          (CityFactory.mk "Copenhagen" (Association.factory (CountryFactory.mk "Denmark")))⟩ := rfl
  refine ⟨⟨db.nextId, "Denmark"⟩, ⟨db.nextId + 1, "Copenhagen", db.nextId⟩,
    ⟨db.nextId + 2, "Bob", db.nextId + 1⟩, ?_, ?_, ?_, ?_, ?_, rfl, rfl⟩ <;>
    simp [hd, userImpl, cityImpl, countryImpl, UserFactory.insert, CityFactory.insert,
      CountryFactory.insert, Association.insert_returning_id,
      DB.insertCountry, DB.insertCity, DB.insertUser, hco, hci, hus]

/-- Witness for C7 on the empty datastore: country id 1, city id 2 pointing
at 1, user id 3 pointing at 2, inserted in that order. -/
theorem nested_insert_depth_first_witness :
    ∃ g c u,
      (userImpl.insert UserFactory.default () emptyDB).1 = .ok u ∧
      (userImpl.insert UserFactory.default () emptyDB).2.log
        = emptyDB.log ++ [Table.countries, Table.cities, Table.users] ∧
      (userImpl.insert UserFactory.default () emptyDB).2.countries = emptyDB.countries ++ [g] ∧
      (userImpl.insert UserFactory.default () emptyDB).2.cities = emptyDB.cities ++ [c] ∧
      (userImpl.insert UserFactory.default () emptyDB).2.users = emptyDB.users ++ [u] ∧
      c.country_id = g.id ∧ u.city_id = c.id :=
  nested_insert_depth_first emptyDB rfl rfl rfl

/-- A datastore in which the cities insert primitive fails. -/
def citiesFail : Table → Bool
  | Table.cities => true
  | _ => false

/-- The empty datastore with the cities insert primitive failing. -/
def dbCitiesFail : DB := ⟨[], [], [], [], 1, citiesFail⟩

/-- C8: when the insert primitive fails for a nested parent factory (here the
city inside the default user chain), the top-level insert returns the
underlying failure unchanged — no usable record — and no child row exists
(neither a user row nor a city row was added). -/
theorem nested_failure_no_child_row (db : DB)
    (hco : db.failing Table.countries = false)
    (hci : db.failing Table.cities = true) :
    (userImpl.insert UserFactory.default () db).1 = .error "insert failed" ∧
    (userImpl.insert UserFactory.default () db).2.users = db.users ∧
    (userImpl.insert UserFactory.default () db).2.cities = db.cities := by
  have hd : UserFactory.default
      = ⟨"Bob", Association.factory
          (CityFactory.mk "Copenhagen" (Association.factory (CountryFactory.mk "Denmark")))⟩ := rfl
  refine ⟨?_, ?_, ?_⟩ <;>
    simp [hd, userImpl, cityImpl, countryImpl, UserFactory.insert, CityFactory.insert,
      CountryFactory.insert, Association.insert_returning_id,
      DB.insertCountry, DB.insertCity, DB.insertUser, hco, hci]

/-- Witness for C8: with the cities primitive failing, inserting the default
user fails with the primitive's message and adds no user and no city row. -/
theorem nested_failure_no_child_row_witness :
    (userImpl.insert UserFactory.default () dbCitiesFail).1 = .error "insert failed" ∧
    (userImpl.insert UserFactory.default () dbCitiesFail).2.users = dbCitiesFail.users ∧
    (userImpl.insert UserFactory.default () dbCitiesFail).2.cities = dbCitiesFail.cities :=
  nested_failure_no_child_row dbCitiesFail rfl rfl

/-- C10: resolving the same `Pending` association value twice performs a
fresh parent insert each time, producing two new rows with distinct
identifiers — resolution of a pending association is not idempotent; only
the `Existing` variant resolves without inserting, returning the datastore
unchanged. -/
theorem pending_resolution_not_idempotent (db : DB)
    (hco : db.failing Table.countries = false) :
    ∃ i1 i2,
      (Association.insert_returning_id countryImpl
          (.factory CountryFactory.default) () db).1 = .ok i1 ∧
      (Association.insert_returning_id countryImpl (.factory CountryFactory.default) ()
          (Association.insert_returning_id countryImpl
            (.factory CountryFactory.default) () db).2).1 = .ok i2 ∧
      i1 ≠ i2 ∧
      (Association.insert_returning_id countryImpl
          (.factory CountryFactory.default) () db).2.countries
        = db.countries ++ [⟨i1, "Denmark"⟩] ∧
      (Association.insert_returning_id countryImpl (.factory CountryFactory.default) ()
          (Association.insert_returning_id countryImpl
            (.factory CountryFactory.default) () db).2).2.countries
        = db.countries ++ [⟨i1, "Denmark"⟩, ⟨i2, "Denmark"⟩] ∧
      ∀ P : Country,
        Association.insert_returning_id countryImpl (.model P) () db = (.ok P.id, db) := by
  refine ⟨db.nextId, db.nextId + 1, ?_, ?_, by omega, ?_, ?_, fun P => rfl⟩ <;>
    simp [countryImpl, CountryFactory.insert, CountryFactory.default,
      Association.insert_returning_id, DB.insertCountry, hco]

/-- Witness for C10 on the empty datastore: the two resolutions of the same
pending association return ids 1 and 2 and leave two Denmark rows. -/
theorem pending_resolution_not_idempotent_witness :
    ∃ i1 i2,
      (Association.insert_returning_id countryImpl
          (.factory CountryFactory.default) () emptyDB).1 = .ok i1 ∧
      (Association.insert_returning_id countryImpl (.factory CountryFactory.default) ()
          (Association.insert_returning_id countryImpl
            (.factory CountryFactory.default) () emptyDB).2).1 = .ok i2 ∧
      i1 ≠ i2 ∧
      (Association.insert_returning_id countryImpl
          (.factory CountryFactory.default) () emptyDB).2.countries
        = emptyDB.countries ++ [⟨i1, "Denmark"⟩] ∧
      (Association.insert_returning_id countryImpl (.factory CountryFactory.default) ()
          (Association.insert_returning_id countryImpl
            (.factory CountryFactory.default) () emptyDB).2).2.countries
        = emptyDB.countries ++ [⟨i1, "Denmark"⟩, ⟨i2, "Denmark"⟩] ∧
      ∀ P : Country,
        Association.insert_returning_id countryImpl (.model P) () emptyDB = (.ok P.id, emptyDB) :=
  pending_resolution_not_idempotent emptyDB rfl

end DieselFactories
